import Mathlib

/-!
Shallow embedding of the `gladius-guardian` process supervisor.

The repository holds two snapshots of one Go file, package `guardian`:
`src/guardian/guardian.go` (embedded below in namespace `Guardian`) and
`src/unnamed/part_000` (embedded in namespace `P0`).  The supervisor keeps
mutex-guarded maps from service names to service settings, to process
handles, to bounded logs and (in the `Guardian` snapshot) to websocket
subscriber lists.  Go maps here become insertion-ordered association lists
with unique keys: `assocLookup` models `m[k]` (first match), `assocInsert`
models `m[k] = v`, and iteration (`for k, v := range m`) walks the list in
order, a fixed representative of Go's unspecified map iteration order.

Operating-system effects (pipe creation, `Start`, `Wait`, `Kill`, the state
of the child at the end of the grace period) are not computable from the
Go text, so they enter the model as oracle data: a `SpawnWorld` records
what the OS does to one spawn attempt, and a `ProcHandle` carries the
outcomes (`killErr`, `waitErr`) that later calls on the handle observe.
Goroutines are modelled sequentially: the termination watcher body becomes
the function `Guardian.watcherOnExit`, applied at the moment the child's
`Wait` concludes.  Errors are message strings; a `go-multierror` aggregate
is a list of messages, and `ErrorOrNil` is `none` on the empty list.
-/

/-- Association-list lookup, modelling Go map read `m[k]` (first match wins;
the operations below keep keys unique). -/
def assocLookup {α : Type} : List (String × α) → String → Option α
  | [], _ => none
  | (k, v) :: rest, key => if k = key then some v else assocLookup rest key

/-- Association-list write, modelling Go map assignment `m[k] = v`:
replaces the binding in place when the key exists, otherwise appends. -/
def assocInsert {α : Type} : List (String × α) → String → α → List (String × α)
  | [], key, v => [(key, v)]
  | (k, w) :: rest, key, v =>
      if k = key then (k, v) :: rest else (k, w) :: assocInsert rest key v

/-- Modelled from the spec: the `FixedSizeLog` implementation (constructor
`NewFixedSizeLog` and method `Append`) is not under `src/`; only its callers
are.  Per §4.1 it is a fixed-capacity ring of text lines: `append(line)`
adds `line` as the newest entry, evicting the oldest first when the buffer
already holds `capacity` entries, and `snapshot()` returns the lines oldest
first. -/
structure FixedSizeLog where
  capacity : Nat
  lines : List String
deriving Repr, DecidableEq

/-- Modelled from the spec: `NewFixedSizeLog(n)` creates an empty bounded
log of capacity `n`. -/
def NewFixedSizeLog (n : Nat) : FixedSizeLog := ⟨n, []⟩

/-- Modelled from the spec: `Append` adds the line as the newest entry; if
the buffer already holds `capacity` entries the oldest is discarded first. -/
def FixedSizeLog.Append (l : FixedSizeLog) (line : String) : FixedSizeLog :=
  let kept := if l.capacity ≤ l.lines.length then l.lines.drop 1 else l.lines
  ⟨l.capacity, kept ++ [line]⟩

/-- Modelled from the spec: `snapshot()` returns the current sequence of
lines, oldest first. -/
def FixedSizeLog.snapshot (l : FixedSizeLog) : List String := l.lines

/-- Exit state of the child as `os/exec` exposes it: `p.ProcessState` is
non-nil only once `p.Wait()` has concluded, and then `Exited()` reports
whether the program exited. -/
structure ProcState where
  exited : Bool
deriving Repr, DecidableEq

/-- Live handle for a spawned process (`*exec.Cmd` after a successful
`Start`).  `pid`, `env` and `path` are the fields `newServiceStatus` reads;
`killErr` is the oracle outcome of `Process.Kill()` on this process and
`waitErr` the oracle outcome of `p.Wait()` (`some "signal: killed"` for a
deliberate kill, `none` for a clean exit). -/
structure ProcHandle where
  pid : Nat
  env : List String
  path : String
  killErr : Option String
  waitErr : Option String
deriving Repr, DecidableEq

/-- Oracle for one spawn attempt: what the operating system does at each
step of `spawnProcess`.  `procStateAtGrace` is `p.ProcessState` as observed
when the grace-period sleep returns (`none` while `Wait` has not concluded). -/
structure SpawnWorld where
  stdoutPipeErr : Option String
  stderrPipeErr : Option String
  startErr : Option String
  pid : Nat
  procStateAtGrace : Option ProcState
  killErr : Option String
  waitErr : Option String
deriving Repr, DecidableEq

/-- `serviceSettings` from the source: environment and executable path
recorded at registration. -/
structure ServiceSettings where
  env : List String
  execName : String
deriving Repr, DecidableEq

/-- `serviceStatus` from the source: the derived status projection. -/
structure ServiceStatus where
  Running : Bool
  PID : Nat
  Env : List String
  Location : String
deriving Repr, DecidableEq

namespace Guardian

/-- `GladiusGuardian` state from `src/guardian/guardian.go`: spawn timeout
plus the four maps (`registeredServices`, `services`, `serviceLogs`,
`serviceWebSockets`); a `services` entry of `none` is a nil `*exec.Cmd`
(registered but not running), and websocket connections are abstract ids. -/
structure GladiusGuardian where
  spawnTimeout : Option Nat
  registeredServices : List (String × ServiceSettings)
  services : List (String × Option ProcHandle)
  serviceLogs : List (String × FixedSizeLog)
  serviceWebSockets : List (String × List Nat)
deriving Repr, DecidableEq

/-- `New()`: fresh guardian with empty maps and no spawn timeout. -/
def New : GladiusGuardian := ⟨none, [], [], [], []⟩

/-- Go read `gg.services[name]`: a missing key yields the zero value nil. -/
def servicesGet (gg : GladiusGuardian) (name : String) : Option ProcHandle :=
  (assocLookup gg.services name).getD none

/-- `RegisterService`: upserts the settings, sets `gg.services[name] = nil`,
and re-initializes the websocket list for the name. -/
def RegisterService (gg : GladiusGuardian) (name execLocation : String)
    (env : List String) : GladiusGuardian :=
  { gg with
    registeredServices :=
      assocInsert gg.registeredServices name ⟨env, execLocation⟩
    services := assocInsert gg.services name none
    serviceWebSockets := assocInsert gg.serviceWebSockets name [] }

/-- `SetTimeout`: stores the spawn grace period. -/
def SetTimeout (gg : GladiusGuardian) (t : Nat) : GladiusGuardian :=
  { gg with spawnTimeout := some t }

/-- `newServiceStatus`: a non-nil command yields a running status built from
its fields; nil yields the zero-valued not-running status. -/
def newServiceStatus : Option ProcHandle → ServiceStatus
  | some p => ⟨true, p.pid, p.env, p.path⟩
  | none => ⟨false, 0, [], ""⟩

/-- `GetServicesStatus`: for the "all"/empty sentinel, a status per entry of
`gg.services`; otherwise a single entry for `name` built from
`gg.services[name]` (nil when absent). -/
def GetServicesStatus (gg : GladiusGuardian) (name : String) :
    List (String × ServiceStatus) :=
  if name = "all" ∨ name = "" then
    gg.services.map (fun kv => (kv.1, newServiceStatus kv.2))
  else
    [(name, newServiceStatus (servicesGet gg name))]

/-- `checkTimeout`: configuration guard on the spawn timeout. -/
def checkTimeout (gg : GladiusGuardian) : Option String :=
  match gg.spawnTimeout with
  | none => some "spawn timeout not set, please set it before a process is spawned"
  | some _ => none

/-- `stopServiceInternal`: unknown-service, not-running and kill-failure
checks; mutates nothing (the watcher clears the record asynchronously). -/
def stopServiceInternal (gg : GladiusGuardian) (name : String) : Option String :=
  match assocLookup gg.registeredServices name with
  | none => some "attempted to stop unregistered service"
  | some _ =>
    match servicesGet gg name with
    | none => some "service is not running so can not stop"
    | some p =>
      match p.killErr with
      | some e => some ("couldn't kill service, error was: " ++ e)
      | none => none

/-- Renders a multierror aggregate: `ErrorOrNil` is nil iff no error was
appended. -/
def aggOf (errs : List String) : Option (List String) :=
  if errs = [] then none else some errs

/-- `StopService`: the "all"/empty sentinel iterates `registeredServices`,
appending `error stopping service NAME: ERR` per failed stop into one
aggregate; a single name returns `stopServiceInternal`'s error alone. -/
def StopService (gg : GladiusGuardian) (name : String) : Option (List String) :=
  if name = "all" ∨ name = "" then
    aggOf (gg.registeredServices.foldl
      (fun acc kv =>
        match stopServiceInternal gg kv.1 with
        | some e => acc ++ ["error stopping service " ++ kv.1 ++ ": " ++ e]
        | none => acc) [])
  else
    (stopServiceInternal gg name).map (fun e => [e])

/-- `spawnProcess`: pipe setup, `Start`, reader goroutines and the watcher
(modelled separately as `watcherOnExit`), the grace-period sleep, then the
guarded inspection of `p.ProcessState` — nil-checked before `Exited()` in
this snapshot. -/
def spawnProcess (name location : String) (env : List String)
    (_timeout : Option Nat) (w : SpawnWorld) : Except String ProcHandle :=
  match w.stdoutPipeErr with
  | some e => .error ("Error creating StdoutPipe for command: " ++ e)
  | none =>
  match w.stderrPipeErr with
  | some e => .error ("Error creating StderrPipe for command: " ++ e)
  | none =>
  match w.startErr with
  | some e => .error ("Error starting process: " ++ e)
  | none =>
    match w.procStateAtGrace with
    | some ps =>
        if ps.exited then
          .error ("process " ++ name ++ " already exited, check the logs for errors")
        else .ok ⟨w.pid, env, location, w.killErr, w.waitErr⟩
    | none => .ok ⟨w.pid, env, location, w.killErr, w.waitErr⟩

/-- `startServiceInternal`: unknown-service and already-running checks,
default-environment substitution into the local `env` (used by the source
only in the Debug log line), `checkTimeout`, then `spawnProcess` on the
registration-time `serviceSettings.env`; the handle is installed only on
success. -/
def startServiceInternal (gg : GladiusGuardian) (name : String)
    (env defaultEnvironment : List String) (w : SpawnWorld) :
    GladiusGuardian × Option String :=
  match assocLookup gg.registeredServices name with
  | none => (gg, some "attempted to start unregistered service")
  | some settings =>
    if (servicesGet gg name).isSome then
      (gg, some ("can't start " ++ name ++ " because it's already running"))
    else
      let _envLogged := if env.length = 0 then defaultEnvironment else env
      match checkTimeout gg with
      | some e => (gg, some e)
      | none =>
        match spawnProcess name settings.execName settings.env gg.spawnTimeout w with
        | .error e => (gg, some e)
        | .ok p => ({ gg with services := assocInsert gg.services name (some p) }, none)

/-- `StartService`: the "all"/empty sentinel iterates `registeredServices`,
threading the state and aggregating per-service errors; a single name
delegates to `startServiceInternal`. -/
def StartService (gg : GladiusGuardian) (name : String)
    (env defaultEnvironment : List String) (worlds : String → SpawnWorld) :
    GladiusGuardian × Option (List String) :=
  if name = "all" ∨ name = "" then
    let step := fun (acc : GladiusGuardian × List String) (kv : String × ServiceSettings) =>
      match startServiceInternal acc.1 kv.1 env defaultEnvironment (worlds kv.1) with
      | (gg2, some e) => (gg2, acc.2 ++ ["error starting service " ++ kv.1 ++ ": " ++ e])
      | (gg2, none) => (gg2, acc.2)
    let r := gg.registeredServices.foldl step (gg, [])
    (r.1, aggOf r.2)
  else
    let r := startServiceInternal gg name env defaultEnvironment (worlds name)
    (r.1, r.2.map (fun e => [e]))

/-- `AppendToLog`: lazily creates the per-service `FixedSizeLog` with the
configured capacity (`viper.GetInt("MaxLogLines")`, passed as `maxLogLines`)
then appends; the websocket push mutates no guardian state. -/
def AppendToLog (gg : GladiusGuardian) (serviceName line : String)
    (maxLogLines : Nat) : GladiusGuardian :=
  let base := match assocLookup gg.serviceLogs serviceName with
    | some l => l
    | none => NewFixedSizeLog maxLogLines
  { gg with serviceLogs := assocInsert gg.serviceLogs serviceName (base.Append line) }

/-- Body of the termination-watcher goroutine in `spawnProcess`, applied
when the child's `Wait` concludes with `waitErr`: sets the service entry
back to nil, and appends `Exiting... ERR` to the log only when `Wait`
returned a non-nil error different from "signal: killed". -/
def watcherOnExit (gg : GladiusGuardian) (name : String)
    (waitErr : Option String) (maxLogLines : Nat) : GladiusGuardian :=
  let gg1 := { gg with services := assocInsert gg.services name none }
  match waitErr with
  | none => gg1
  | some e =>
    if e = "signal: killed" then gg1
    else AppendToLog gg1 name ("Exiting... " ++ e) maxLogLines

end Guardian

/-- Dereference of `p.ProcessState.Exited()`: `none` when `ProcessState` is
nil, in which case calling `Exited()` on it in Go panics (a nil pointer
dereference); the surrounding code decides whether that dereference is
guarded. -/
def derefExited : Option ProcState → Option Bool
  | none => none
  | some ps => some ps.exited

/-- Post-grace-period inspection from `src/guardian/guardian.go` lines
305–311: `p.ProcessState` is nil-checked before `Exited()` is consulted, so
a still-running child (nil `ProcessState`) takes the success path without
any dereference.  A `none` result would model a nil-pointer panic. -/
def Guardian.graceCheck (name : String) (ps : Option ProcState) :
    Option (Except String Unit) :=
  match ps with
  | some _ =>
    (derefExited ps).map (fun b =>
      if b then
        Except.error ("process " ++ name ++ " already exited, check the logs for errors")
      else Except.ok ())
  | none => some (Except.ok ())

namespace P0

/-- `GladiusGuardian` state from `src/unnamed/part_000`: as in the other
snapshot but with no `serviceWebSockets` map. -/
structure GladiusGuardian where
  spawnTimeout : Option Nat
  registeredServices : List (String × ServiceSettings)
  services : List (String × Option ProcHandle)
  serviceLogs : List (String × FixedSizeLog)
deriving Repr, DecidableEq

/-- Go read `gg.services[name]` in the `part_000` snapshot. -/
def servicesGet (gg : GladiusGuardian) (name : String) : Option ProcHandle :=
  (assocLookup gg.services name).getD none

/-- `RegisterService` in `part_000`: upserts the settings and sets
`gg.services[name] = nil`; there is no websocket map to touch. -/
def RegisterService (gg : GladiusGuardian) (name execLocation : String)
    (env : List String) : GladiusGuardian :=
  { gg with
    registeredServices :=
      assocInsert gg.registeredServices name ⟨env, execLocation⟩
    services := assocInsert gg.services name none }

/-- Rendering of `fmt.Errorf("...%s", err)` on a Go `error` value: a nil
error prints as `%!s(<nil>)`. -/
def formatGoErr : Option String → String
  | some e => e
  | none => "%!s(<nil>)"

/-- `StopAll` in `part_000`: iterates `gg.services`; for a non-nil entry it
kills and appends an `error stopping service` entry even when `Kill`
returned nil, and then unconditionally appends a `service not running`
entry for every service, running or not. -/
def StopAll (gg : GladiusGuardian) : Option (List String) :=
  Guardian.aggOf (gg.services.foldl
    (fun acc kv =>
      (match kv.2 with
       | some p =>
         acc ++ ["error stopping service " ++ kv.1 ++ ": " ++ formatGoErr p.killErr]
       | none => acc) ++ ["service not running: " ++ kv.1]) [])

/-- `StopService` in `part_000`: single-name stop with unknown-service,
not-running and kill-failure checks (same body as the other snapshot's
`stopServiceInternal`). -/
def StopService (gg : GladiusGuardian) (name : String) : Option (List String) :=
  (match assocLookup gg.registeredServices name with
   | none => some "attempted to stop unregistered service"
   | some _ =>
     match servicesGet gg name with
     | none => some "service is not running so can not stop"
     | some p =>
       match p.killErr with
       | some e => some ("couldn't kill service, error was: " ++ e)
       | none => none).map (fun e => [e])

/-- `StartService` in `part_000`: a single-name start only — there is no
"all"/empty-sentinel branch in this snapshot, so those strings are treated
as ordinary (unregistered) service names. -/
def StartService (gg : GladiusGuardian) (name : String)
    (env defaultEnvironment : List String) (w : SpawnWorld) :
    GladiusGuardian × Option String :=
  match assocLookup gg.registeredServices name with
  | none => (gg, some "attempted to start unregistered service")
  | some settings =>
    if (servicesGet gg name).isSome then
      (gg, some ("can't start " ++ name ++ " because it's already running"))
    else
      let _envLogged := if env.length = 0 then defaultEnvironment else env
      match (match gg.spawnTimeout with
             | none => some "spawn timeout not set, please set it before a process is spawned"
             | some _ => none : Option String) with
      | some e => (gg, some e)
      | none =>
        match Guardian.spawnProcess name settings.execName settings.env gg.spawnTimeout w with
        | .error e => (gg, some e)
        | .ok p => ({ gg with services := assocInsert gg.services name (some p) }, none)

/-- Post-grace-period inspection from `src/unnamed/part_000` lines 273–277:
`p.ProcessState.Exited()` is called with no nil check, so a still-running
child (nil `ProcessState`) dereferences the nil pointer — modelled as the
`none` result. -/
def graceCheck (name : String) (ps : Option ProcState) :
    Option (Except String Unit) :=
  (derefExited ps).map (fun b =>
    if b then
      Except.error ("process " ++ name ++ " already exited, check the logs for errors")
    else Except.ok ())

end P0

/-! ### Concrete example states used by witnesses and counterexamples -/

/-- Example state for C1's counterexample: one registered service ("a"),
running, whose kill succeeds. -/
def exC1 : Guardian.GladiusGuardian :=
  { spawnTimeout := some 1
    registeredServices := [("a", ⟨[], "/bin/a"⟩)]
    services := [("a", some ⟨7, [], "/bin/a", none, none⟩)]
    serviceLogs := []
    serviceWebSockets := [("a", [])] }

/-- Example state for C1's witness: two registered services, "a" running
with a succeeding kill and "b" not running. -/
def exC1w : Guardian.GladiusGuardian :=
  { spawnTimeout := some 1
    registeredServices := [("a", ⟨[], "/bin/a"⟩), ("b", ⟨[], "/bin/b"⟩)]
    services := [("a", some ⟨7, [], "/bin/a", none, none⟩), ("b", none)]
    serviceLogs := []
    serviceWebSockets := [] }

/-- Lines currently held by a service's log buffer (empty when the service
has no log yet). -/
def Guardian.logLines (gg : Guardian.GladiusGuardian) (name : String) : List String :=
  match assocLookup gg.serviceLogs name with
  | some l => l.lines
  | none => []

/-- Example state for C2's witness: "w" registered with a set timeout and
not running. -/
def exC2 : Guardian.GladiusGuardian :=
  { spawnTimeout := some 5
    registeredServices := [("w", ⟨["A=1"], "/bin/w"⟩)]
    services := [("w", none)]
    serviceLogs := []
    serviceWebSockets := [("w", [])] }

/-- Spawn oracle in which the child exits (with exit status) before the
grace period elapses. -/
def exWorldExit : SpawnWorld := ⟨none, none, none, 9, some ⟨true⟩, none, none⟩

/-- Spawn oracle in which everything succeeds and the child is still
running at the end of the grace period. -/
def exWorldOk : SpawnWorld := ⟨none, none, none, 9, none, none, none⟩

/-- Example state for C3's counterexample: "a" registered and running. -/
def exC3 : Guardian.GladiusGuardian :=
  { spawnTimeout := some 1
    registeredServices := [("a", ⟨[], "/bin/a"⟩)]
    services := [("a", some ⟨3, [], "/bin/a", none, none⟩)]
    serviceLogs := []
    serviceWebSockets := [("a", [])] }

/-- Example state for C4: "w" registered with environment ["A=1"], not
running, timeout set. -/
def exC4 : Guardian.GladiusGuardian :=
  { spawnTimeout := some 1
    registeredServices := [("w", ⟨["A=1"], "/bin/w"⟩)]
    services := [("w", none)]
    serviceLogs := []
    serviceWebSockets := [] }

/-- Example state for C5: "a" running, with a non-empty log for "a". -/
def exC5 : Guardian.GladiusGuardian :=
  { spawnTimeout := some 1
    registeredServices := [("a", ⟨[], "/bin/a"⟩)]
    services := [("a", some ⟨3, [], "/bin/a", none, none⟩)]
    serviceLogs := [("a", ⟨10, ["boot"]⟩)]
    serviceWebSockets := [] }

/-- Example state for C6's witness: "w" registered and not running, spawn
timeout never set. -/
def exC6 : Guardian.GladiusGuardian :=
  { spawnTimeout := none
    registeredServices := [("w", ⟨[], "/bin/w"⟩)]
    services := [("w", none)]
    serviceLogs := []
    serviceWebSockets := [] }

/-- Guardian-snapshot state for C9: one registered service "a", not
running. -/
def exC9g : Guardian.GladiusGuardian :=
  ⟨some 1, [("a", ⟨[], "/bin/a"⟩)], [("a", none)], [], []⟩

/-- part_000-snapshot state for C9 with the same registry and process table
as `exC9g`. -/
def exC9p : P0.GladiusGuardian :=
  ⟨some 1, [("a", ⟨[], "/bin/a"⟩)], [("a", none)], []⟩

/-! ### Association-list lemmas -/

theorem assocLookup_insert_self {α : Type} (l : List (String × α)) (k : String) (v : α) :
    assocLookup (assocInsert l k v) k = some v := by
  induction l with
  | nil => simp [assocInsert, assocLookup]
  | cons kv rest ih =>
    obtain ⟨k1, w⟩ := kv
    by_cases h : k1 = k
    · simp [assocInsert, assocLookup, h]
    · simp [assocInsert, assocLookup, h, ih]

theorem assocLookup_mem {α : Type} {l : List (String × α)} {k : String} {v : α}
    (h : assocLookup l k = some v) : (k, v) ∈ l := by
  induction l with
  | nil => simp [assocLookup] at h
  | cons kv rest ih =>
    obtain ⟨k1, w⟩ := kv
    by_cases hk : k1 = k
    · subst hk
      simp [assocLookup] at h
      subst h
      exact List.mem_cons_self _ _
    · simp [assocLookup, hk] at h
      exact List.mem_cons_of_mem _ (ih h)

theorem assocLookup_isSome_of_mem {α : Type} {l : List (String × α)} {kv : String × α}
    (h : kv ∈ l) : (assocLookup l kv.1).isSome := by
  induction l with
  | nil => simp at h
  | cons hd rest ih =>
    obtain ⟨k1, w⟩ := hd
    by_cases hk : k1 = kv.1
    · simp [assocLookup, hk]
    · rcases List.mem_cons.mp h with h | h
      · exact absurd (congrArg Prod.fst h).symm hk
      · simpa [assocLookup, hk] using ih h

/-! ### Bounded log buffer lemmas -/

theorem FixedSizeLog.capacity_append (l : FixedSizeLog) (line : String) :
    (l.Append line).capacity = l.capacity := rfl

theorem FixedSizeLog.foldl_append_lines (N : Nat) (hN : 0 < N) :
    ∀ (xs : List String) (l : FixedSizeLog), l.capacity = N → l.lines.length ≤ N →
      (xs.foldl FixedSizeLog.Append l).lines
        = (l.lines ++ xs).drop (l.lines.length + xs.length - N) := by
  intro xs
  induction xs with
  | nil =>
    intro l hc hl
    simp only [List.foldl_nil, List.append_nil, List.length_nil, Nat.add_zero]
    rw [Nat.sub_eq_zero_of_le hl]
    simp
  | cons x rest ih =>
    intro l hc hl
    rw [List.foldl_cons]
    by_cases hfull : N ≤ l.lines.length
    · have hlen : l.lines.length = N := le_antisymm hl hfull
      have hlines : (l.Append x).lines = l.lines.drop 1 ++ [x] := by
        simp [FixedSizeLog.Append, hc, hfull]
      have hlenEq : (l.Append x).lines.length = N := by
        rw [hlines]
        simp only [List.length_append, List.length_drop, List.length_cons,
          List.length_nil, hlen]
        omega
      rw [ih (l.Append x) (by rw [FixedSizeLog.capacity_append, hc]) (le_of_eq hlenEq)]
      rw [hlenEq, hlines]
      have hne : 1 ≤ l.lines.length := by omega
      have hsplit : (l.lines.drop 1 ++ [x]) ++ rest = (l.lines ++ x :: rest).drop 1 := by
        rw [List.drop_append_of_le_length hne, List.append_assoc, List.singleton_append]
      rw [hsplit, List.drop_drop]
      congr 1
      simp only [List.length_cons]
      omega
    · push_neg at hfull
      have hniff : ¬ N ≤ l.lines.length := by omega
      have hlines : (l.Append x).lines = l.lines ++ [x] := by
        simp [FixedSizeLog.Append, hc, hniff]
      have hlenEq : (l.Append x).lines.length = l.lines.length + 1 := by
        rw [hlines]
        simp
      rw [ih (l.Append x) (by rw [FixedSizeLog.capacity_append, hc]) (by omega)]
      rw [hlenEq, hlines, List.append_assoc, List.singleton_append]
      congr 1
      simp only [List.length_cons]
      omega

/-! ### Stop-all aggregation -/

theorem Guardian.stopAll_foldl (gg : Guardian.GladiusGuardian)
    (hkill : ∀ s p, Guardian.servicesGet gg s = some p → p.killErr = none) :
    ∀ (l : List (String × ServiceSettings)) (acc : List String),
      (∀ kv ∈ l, (assocLookup gg.registeredServices kv.1).isSome) →
      l.foldl (fun acc kv =>
          match Guardian.stopServiceInternal gg kv.1 with
          | some e => acc ++ ["error stopping service " ++ kv.1 ++ ": " ++ e]
          | none => acc) acc
        = acc ++ ((l.map Prod.fst).filter
              (fun s => (Guardian.servicesGet gg s).isNone)).map
            (fun s => "error stopping service " ++ s
              ++ ": service is not running so can not stop") := by
  intro l
  induction l with
  | nil => intro acc _; simp
  | cons kv rest ih =>
    intro acc hreg
    obtain ⟨s, stg⟩ := kv
    have hs : (assocLookup gg.registeredServices s).isSome :=
      hreg (s, stg) (List.mem_cons_self _ _)
    obtain ⟨v, hv⟩ := Option.isSome_iff_exists.mp hs
    have hrest : ∀ kv ∈ rest, (assocLookup gg.registeredServices kv.1).isSome :=
      fun kv h => hreg kv (List.mem_cons_of_mem _ h)
    rw [List.foldl_cons]
    cases hsv : Guardian.servicesGet gg s with
    | none =>
      have hint : Guardian.stopServiceInternal gg s
          = some "service is not running so can not stop" := by
        simp [Guardian.stopServiceInternal, hv, hsv]
      simp only [hint]
      rw [ih _ hrest]
      simp only [List.map_cons, List.filter_cons, hsv, Option.isNone_none, if_pos,
        List.map, List.append_assoc, List.singleton_append]
      congr 2
      rw [String.append_assoc]
      congr 1
    | some p =>
      have hint : Guardian.stopServiceInternal gg s = none := by
        simp [Guardian.stopServiceInternal, hv, hsv, hkill s p hsv]
      simp only [hint]
      rw [ih acc hrest]
      simp [hsv]

/-- C1 (amended): `StopService` with the "all" sentinel attempts every
registered service exactly once regardless of individual failures, and a
service that is not running counts as a failure in the aggregate — even one
never started.  When every kill succeeds, the aggregate error references
exactly the not-running registered services' names (the N−K of them, in
iteration order); services whose kill attempt succeeded contribute no entry,
and the aggregate is nil when every registered service was running. -/
theorem Guardian.stopService_all_aggregate (gg : Guardian.GladiusGuardian)
    (hkill : ∀ kv ∈ gg.services, (kv.2.map ProcHandle.killErr).getD none = none) :
    Guardian.StopService gg "all"
      = Guardian.aggOf (((gg.registeredServices.map Prod.fst).filter
            (fun s => (Guardian.servicesGet gg s).isNone)).map
          (fun s => "error stopping service " ++ s
            ++ ": service is not running so can not stop")) := by
  have hkill2 : ∀ s p, Guardian.servicesGet gg s = some p → p.killErr = none := by
    intro s p h
    have hlk : assocLookup gg.services s = some (some p) := by
      unfold Guardian.servicesGet at h
      cases hl : assocLookup gg.services s with
      | none => rw [hl] at h; simp at h
      | some v => rw [hl] at h; simp at h; rw [h]
    have hm := assocLookup_mem hlk
    have hk := hkill (s, some p) hm
    simpa using hk
  unfold Guardian.StopService
  rw [if_pos (Or.inl rfl)]
  rw [Guardian.stopAll_foldl gg hkill2 gg.registeredServices []
    (fun kv h => assocLookup_isSome_of_mem h)]
  simp

/-- C1 counterexample: with N = 1 registered service and K = 1 running whose
kill succeeds, `StopService "all"` returns no aggregate error at all, so the
returned aggregate does not reference all N service names' outcomes (the
claim requires K kill-attempt entries). -/
theorem Guardian.stopService_all_aggregate_counterexample :
    Guardian.StopService exC1 "all" = none := by decide

/-- Witness for the amended C1: on `exC1w` (N = 2, K = 1) the aggregate
references exactly the one not-running service. -/
theorem Guardian.stopService_all_aggregate_witness :
    Guardian.StopService exC1w "all"
      = some ["error stopping service b: service is not running so can not stop"] := by
  rw [Guardian.stopService_all_aggregate exC1w (by decide)]
  decide

/-- C7: for every bounded log of capacity N > 0 and every append sequence
longer than N, `snapshot` returns exactly the last N appended lines in
arrival order and never more; the buffer's length never exceeds N, and an
append when the buffer is full evicts the oldest line before inserting the
new one. -/
theorem FixedSizeLog.snapshot_last_n (N : Nat) (xs : List String) (line : String)
    (hN : 0 < N) (hlen : N < xs.length) :
    (xs.foldl FixedSizeLog.Append (NewFixedSizeLog N)).snapshot
        = xs.drop (xs.length - N)
    ∧ (xs.foldl FixedSizeLog.Append (NewFixedSizeLog N)).snapshot.length = N
    ∧ (∀ ys : List String,
        (ys.foldl FixedSizeLog.Append (NewFixedSizeLog N)).lines.length ≤ N)
    ∧ (∀ l : FixedSizeLog, l.capacity = N → l.lines.length = N →
        (l.Append line).lines = l.lines.drop 1 ++ [line]) := by
  have hmain := FixedSizeLog.foldl_append_lines N hN xs (NewFixedSizeLog N) rfl
    (by simp [NewFixedSizeLog])
  have hsnap : (xs.foldl FixedSizeLog.Append (NewFixedSizeLog N)).snapshot
      = xs.drop (xs.length - N) := by
    unfold FixedSizeLog.snapshot
    rw [hmain]
    simp [NewFixedSizeLog]
  refine ⟨hsnap, ?_, ?_, ?_⟩
  · rw [hsnap]
    simp only [List.length_drop]
    omega
  · intro ys
    have h := FixedSizeLog.foldl_append_lines N hN ys (NewFixedSizeLog N) rfl
      (by simp [NewFixedSizeLog])
    rw [h]
    simp [NewFixedSizeLog]
    omega
  · intro l hc hl
    have hfull : l.capacity ≤ l.lines.length := by omega
    simp [FixedSizeLog.Append, hfull]

/-- Witness for C7 at N = 2: appending three lines keeps exactly the last
two, and an append to a full buffer evicts the oldest. -/
theorem FixedSizeLog.snapshot_last_n_witness :
    (["a", "b", "c"].foldl FixedSizeLog.Append (NewFixedSizeLog 2)).snapshot
        = ["b", "c"]
    ∧ (FixedSizeLog.Append ⟨2, ["x", "y"]⟩ "d").lines = ["y", "d"] := by
  have h := FixedSizeLog.snapshot_last_n 2 ["a", "b", "c"] "d" (by decide) (by decide)
  refine ⟨?_, ?_⟩
  · rw [h.1]; decide
  · rw [h.2.2.2 ⟨2, ["x", "y"]⟩ rfl rfl]; decide

/-- C2: when the spawned child exits before the grace period elapses (its
exit state is present with `Exited()` true at the end of the sleep),
`spawnProcess` returns the early-exit error, `StartService` propagates it,
and no ProcessRecord is installed: the process-table entry for the name is
still absent after the call. -/
theorem Guardian.startService_early_exit (gg : Guardian.GladiusGuardian)
    (name : String) (env defaultEnvironment : List String)
    (worlds : String → SpawnWorld) (settings : ServiceSettings) (t : Nat)
    (hall : name ≠ "all") (hemp : name ≠ "")
    (hreg : assocLookup gg.registeredServices name = some settings)
    (hnr : Guardian.servicesGet gg name = none)
    (hto : gg.spawnTimeout = some t)
    (h1 : (worlds name).stdoutPipeErr = none)
    (h2 : (worlds name).stderrPipeErr = none)
    (h3 : (worlds name).startErr = none)
    (hexit : (worlds name).procStateAtGrace = some ⟨true⟩) :
    Guardian.spawnProcess name settings.execName settings.env gg.spawnTimeout
        (worlds name)
      = Except.error ("process " ++ name ++ " already exited, check the logs for errors")
    ∧ Guardian.StartService gg name env defaultEnvironment worlds
      = (gg, some ["process " ++ name ++ " already exited, check the logs for errors"])
    ∧ Guardian.servicesGet
        (Guardian.StartService gg name env defaultEnvironment worlds).1 name = none := by
  have hspawn0 : ∀ tmo, Guardian.spawnProcess name settings.execName settings.env
      tmo (worlds name)
      = Except.error ("process " ++ name ++ " already exited, check the logs for errors") := by
    intro tmo
    simp [Guardian.spawnProcess, h1, h2, h3, hexit]
  have hstart : Guardian.StartService gg name env defaultEnvironment worlds
      = (gg, some ["process " ++ name ++ " already exited, check the logs for errors"]) := by
    simp [Guardian.StartService, hall, hemp, Guardian.startServiceInternal, hreg, hnr,
      Guardian.checkTimeout, hto, hspawn0]
  exact ⟨hspawn0 gg.spawnTimeout, hstart, by rw [hstart]; exact hnr⟩

/-- Witness for C2: on `exC2` with a child that exits during the grace
period, the start call fails with the early-exit error and the table entry
stays absent. -/
theorem Guardian.startService_early_exit_witness :
    Guardian.StartService exC2 "w" [] [] (fun _ => exWorldExit)
      = (exC2, some ["process w already exited, check the logs for errors"]) :=
  (Guardian.startService_early_exit exC2 "w" [] [] (fun _ => exWorldExit)
      ⟨["A=1"], "/bin/w"⟩ 5 (by decide) (by decide) (by decide) (by decide) rfl rfl
      rfl rfl rfl).2.1

/-- C3 (amended): `RegisterService` upserts the ServiceDefinition,
re-initializes the SubscriberSet, leaves the logs and the spawn timeout
untouched — and unconditionally resets the process-table entry for the name
to absent, clobbering any existing ProcessRecord. -/
theorem Guardian.registerService_effects (gg : Guardian.GladiusGuardian)
    (name loc : String) (env : List String) :
    assocLookup (Guardian.RegisterService gg name loc env).registeredServices name
        = some ⟨env, loc⟩
    ∧ Guardian.servicesGet (Guardian.RegisterService gg name loc env) name = none
    ∧ assocLookup (Guardian.RegisterService gg name loc env).serviceWebSockets name
        = some []
    ∧ (Guardian.RegisterService gg name loc env).serviceLogs = gg.serviceLogs
    ∧ (Guardian.RegisterService gg name loc env).spawnTimeout = gg.spawnTimeout := by
  refine ⟨?_, ?_, ?_, rfl, rfl⟩
  · exact assocLookup_insert_self gg.registeredServices name ⟨env, loc⟩
  · unfold Guardian.servicesGet Guardian.RegisterService
    rw [assocLookup_insert_self]
    rfl
  · exact assocLookup_insert_self gg.serviceWebSockets name []

/-- C3 counterexample: "a" has a present (running) ProcessRecord in `exC3`;
calling `RegisterService` again for "a" resets the process-table entry to
absent, so an existing ProcessRecord is not left untouched. -/
theorem Guardian.registerService_counterexample :
    Guardian.servicesGet exC3 "a" = some ⟨3, [], "/bin/a", none, none⟩
    ∧ Guardian.servicesGet (Guardian.RegisterService exC3 "a" "/bin/a" []) "a"
        = none := by decide

/-- C4 (bug evaluation): on `exC4`, whose service "w" was registered with
environment ["A=1"], starting with caller-supplied environment ["B=2"] (and
default ["D=0"]) succeeds but spawns the child with the registration-time
environment ["A=1"] — the caller-supplied environment is never passed to
the spawn (the substituted value is used only in a debug log line). -/
theorem Guardian.startService_env_bug_eval :
    (Guardian.startServiceInternal exC4 "w" ["B=2"] ["D=0"] exWorldOk).2 = none
    ∧ ((Guardian.servicesGet
          (Guardian.startServiceInternal exC4 "w" ["B=2"] ["D=0"] exWorldOk).1 "w").map
        ProcHandle.env) = some ["A=1"]
    ∧ ((Guardian.servicesGet
          (Guardian.startServiceInternal exC4 "w" ["B=2"] ["D=0"] exWorldOk).1 "w").map
        ProcHandle.env) ≠ some ["B=2"] := by decide

/-- C5 (amended): whenever the watcher observes the process exit, it clears
the service's ProcessRecord back to absent; it appends an
"Exiting... ERR" line to the service's log only when `Wait` returned a
non-nil error different from the deliberate kill signal ("signal: killed");
a normal successful exit (nil error) appends nothing, and a kill-signal
exit appends nothing. -/
theorem Guardian.watcherOnExit_spec (gg : Guardian.GladiusGuardian)
    (name : String) (waitErr : Option String) (maxLogLines : Nat) :
    Guardian.servicesGet (Guardian.watcherOnExit gg name waitErr maxLogLines) name
        = none
    ∧ (waitErr = none →
        (Guardian.watcherOnExit gg name waitErr maxLogLines).serviceLogs
          = gg.serviceLogs)
    ∧ (waitErr = some "signal: killed" →
        (Guardian.watcherOnExit gg name waitErr maxLogLines).serviceLogs
          = gg.serviceLogs)
    ∧ (∀ e, waitErr = some e → e ≠ "signal: killed" →
        (Guardian.logLines (Guardian.watcherOnExit gg name waitErr maxLogLines)
            name).getLast?
          = some ("Exiting... " ++ e)) := by
  cases waitErr with
  | none =>
    refine ⟨?_, fun _ => rfl, ?_, ?_⟩
    · unfold Guardian.watcherOnExit Guardian.servicesGet
      rw [assocLookup_insert_self]
      rfl
    · intro h
      cases h
    · intro e h
      cases h
  | some e0 =>
    by_cases hk : e0 = "signal: killed"
    · subst hk
      refine ⟨?_, ?_, ?_, ?_⟩
      · unfold Guardian.watcherOnExit Guardian.servicesGet
        simp [assocLookup_insert_self]
      · intro h
        cases h
      · intro _
        simp [Guardian.watcherOnExit]
      · intro e h hne
        exact absurd (Option.some_injective _ h).symm hne
    · refine ⟨?_, ?_, ?_, ?_⟩
      · unfold Guardian.watcherOnExit Guardian.servicesGet
        simp [hk, Guardian.AppendToLog, assocLookup_insert_self]
      · intro h
        cases h
      · intro h
        exact absurd (Option.some_injective _ h) hk
      · intro e h hne
        have he : e = e0 := (Option.some_injective _ h).symm
        subst he
        simp only [Guardian.watcherOnExit]
        rw [if_neg hk]
        simp [Guardian.AppendToLog, Guardian.logLines, assocLookup_insert_self,
          FixedSizeLog.Append, List.getLast?_concat]

/-- Witness for the amended C5: on `exC5`, a watcher observing exit error
"exit status 1" clears the record and appends the terminal log line. -/
theorem Guardian.watcherOnExit_spec_witness :
    Guardian.servicesGet (Guardian.watcherOnExit exC5 "a" (some "exit status 1") 10) "a"
        = none
    ∧ (Guardian.logLines (Guardian.watcherOnExit exC5 "a" (some "exit status 1") 10)
          "a").getLast? = some "Exiting... exit status 1" := by
  have h := Guardian.watcherOnExit_spec exC5 "a" (some "exit status 1") 10
  refine ⟨h.1, ?_⟩
  rw [h.2.2.2 "exit status 1" rfl (by decide)]
  decide

/-- C5 counterexample: on `exC5` the child exits normally (`Wait` returns a
nil error, an exit not caused by the watcher's kill signal); the watcher
clears the record but appends no line to the log, contradicting the claim
that such an exit is recorded in the log. -/
theorem Guardian.watcherOnExit_counterexample :
    (Guardian.watcherOnExit exC5 "a" none 10).serviceLogs = exC5.serviceLogs
    ∧ Guardian.servicesGet (Guardian.watcherOnExit exC5 "a" none 10) "a" = none := by
  decide

/-- C6 (amended): if `setSpawnTimeout` has never been called, a single-name
`StartService` never succeeds and leaves the state unchanged (no process
spawned, no process record created); for a registered, not-running service
the error is the configuration error "spawn timeout not set ..."; an
unregistered name fails with the unknown-service error first, and an
already-running record with the state-conflict error. -/
theorem Guardian.startService_no_timeout (gg : Guardian.GladiusGuardian)
    (name : String) (env defaultEnvironment : List String)
    (worlds : String → SpawnWorld)
    (hall : name ≠ "all") (hemp : name ≠ "")
    (hto : gg.spawnTimeout = none) :
    (Guardian.StartService gg name env defaultEnvironment worlds).1 = gg
    ∧ (Guardian.StartService gg name env defaultEnvironment worlds).2 ≠ none
    ∧ ((assocLookup gg.registeredServices name).isSome →
        Guardian.servicesGet gg name = none →
        (Guardian.StartService gg name env defaultEnvironment worlds).2
          = some ["spawn timeout not set, please set it before a process is spawned"]) := by
  cases hreg : assocLookup gg.registeredServices name with
  | none =>
    have hval : Guardian.StartService gg name env defaultEnvironment worlds
        = (gg, some ["attempted to start unregistered service"]) := by
      simp [Guardian.StartService, hall, hemp, Guardian.startServiceInternal, hreg]
    rw [hval]
    refine ⟨rfl, by simp, ?_⟩
    intro hs _
    simp at hs
  | some settings =>
    cases hnr : Guardian.servicesGet gg name with
    | some p =>
      have hval : Guardian.StartService gg name env defaultEnvironment worlds
          = (gg, some ["can't start " ++ name ++ " because it's already running"]) := by
        simp [Guardian.StartService, hall, hemp, Guardian.startServiceInternal, hreg, hnr]
      rw [hval]
      refine ⟨rfl, by simp, ?_⟩
      intro _ hn
      cases hn
    | none =>
      have hval : Guardian.StartService gg name env defaultEnvironment worlds
          = (gg,
             some ["spawn timeout not set, please set it before a process is spawned"]) := by
        simp [Guardian.StartService, hall, hemp, Guardian.startServiceInternal, hreg, hnr,
          Guardian.checkTimeout, hto]
      rw [hval]
      exact ⟨rfl, by simp, fun _ _ => rfl⟩

/-- C6 counterexample: on a fresh guardian (spawn timeout never set),
starting the unregistered name "x" fails with the unknown-service error,
not the configuration error — so `startService` without a prior
`setSpawnTimeout` does not fail with the configuration error for every
service. -/
theorem Guardian.startService_no_timeout_counterexample :
    (Guardian.StartService Guardian.New "x" [] [] (fun _ => exWorldOk)).2
        = some ["attempted to start unregistered service"]
    ∧ (Guardian.StartService Guardian.New "x" [] [] (fun _ => exWorldOk)).2
        ≠ some ["spawn timeout not set, please set it before a process is spawned"] := by
  decide

/-- Witness for the amended C6: on `exC6` ("w" registered, not running,
timeout unset) the start fails with the configuration error and the state
is unchanged. -/
theorem Guardian.startService_no_timeout_witness :
    (Guardian.StartService exC6 "w" [] [] (fun _ => exWorldOk)).1 = exC6
    ∧ (Guardian.StartService exC6 "w" [] [] (fun _ => exWorldOk)).2
        = some ["spawn timeout not set, please set it before a process is spawned"] := by
  have h := Guardian.startService_no_timeout exC6 "w" [] [] (fun _ => exWorldOk)
    (by decide) (by decide) rfl
  exact ⟨h.1, h.2.2 (by decide) (by decide)⟩

/-- C8: `GetServicesStatus` never fails — it totally returns a status
mapping; a single unknown (unregistered) name yields exactly one entry with
the zero-valued not-running status, and every returned status with
`running = false` (for any query) has zero-valued pid, environment and
executable-location fields. -/
theorem Guardian.getServicesStatus_defensive (gg : Guardian.GladiusGuardian)
    (name : String) (hall : name ≠ "all") (hemp : name ≠ "")
    (hunk : Guardian.servicesGet gg name = none) :
    Guardian.GetServicesStatus gg name = [(name, ⟨false, 0, [], ""⟩)]
    ∧ (∀ (q s : String) (stat : ServiceStatus),
        (s, stat) ∈ Guardian.GetServicesStatus gg q → stat.Running = false →
        stat.PID = 0 ∧ stat.Env = [] ∧ stat.Location = "") := by
  constructor
  · simp [Guardian.GetServicesStatus, hall, hemp, hunk, Guardian.newServiceStatus]
  · intro q s stat hmem hrun
    unfold Guardian.GetServicesStatus at hmem
    by_cases hq : q = "all" ∨ q = ""
    · rw [if_pos hq] at hmem
      obtain ⟨kv, hkv, heq⟩ := List.mem_map.mp hmem
      have h2 : Guardian.newServiceStatus kv.2 = stat := congrArg Prod.snd heq
      subst h2
      cases hv : kv.2 with
      | some p =>
        rw [hv] at hrun
        simp [Guardian.newServiceStatus] at hrun
      | none =>
        simp [Guardian.newServiceStatus]
    · rw [if_neg hq] at hmem
      have heq : (s, stat) = (q, Guardian.newServiceStatus (Guardian.servicesGet gg q)) := by
        simpa using hmem
      have h2 : stat = Guardian.newServiceStatus (Guardian.servicesGet gg q) :=
        congrArg Prod.snd heq
      subst h2
      cases hv : Guardian.servicesGet gg q with
      | some p =>
        rw [hv] at hrun
        simp [Guardian.newServiceStatus] at hrun
      | none =>
        simp [Guardian.newServiceStatus]

/-- Witness for C8: querying the unknown name "ghost" on a fresh guardian
yields the single zero-valued absent-status entry. -/
theorem Guardian.getServicesStatus_defensive_witness :
    Guardian.GetServicesStatus Guardian.New "ghost" = [("ghost", ⟨false, 0, [], ""⟩)] :=
  (Guardian.getServicesStatus_defensive Guardian.New "ghost" (by decide) (by decide)
    rfl).1

/-- C9 (amended): the two snapshots are two revisions of one file, not
behavioral duplicates.  They agree on some operations — single-name stop is
equivalent on corresponding states, proved here for all inputs — but their
bulk stop aggregation (among other operations) differs, as the
counterexample shows. -/
theorem stop_single_equiv (t : Option Nat)
    (reg : List (String × ServiceSettings))
    (svcs : List (String × Option ProcHandle))
    (logs logs2 : List (String × FixedSizeLog))
    (wss : List (String × List Nat)) (name : String)
    (hall : name ≠ "all") (hemp : name ≠ "") :
    Guardian.StopService ⟨t, reg, svcs, logs, wss⟩ name
      = P0.StopService ⟨t, reg, svcs, logs2⟩ name := by
  have hcond : ¬ (name = "all" ∨ name = "") := by simp [hall, hemp]
  unfold Guardian.StopService P0.StopService
  rw [if_neg hcond]
  unfold Guardian.stopServiceInternal Guardian.servicesGet P0.servicesGet
  rfl

/-- Witness for the amended C9: single-name stop of "a" gives the same
result in both snapshots on the corresponding states `exC9g` and `exC9p`. -/
theorem stop_single_equiv_witness :
    Guardian.StopService exC9g "a" = P0.StopService exC9p "a" :=
  stop_single_equiv (some 1) [("a", ⟨[], "/bin/a"⟩)] [("a", none)] [] [] [] "a"
    (by decide) (by decide)

/-- C9 counterexample: on corresponding states with one registered,
not-running service "a", the guardian.go snapshot's stop-all and the
part_000 snapshot's `StopAll` return different aggregates, so the two
snapshots are not behaviorally equivalent duplicates. -/
theorem snapshots_not_equivalent :
    Guardian.StopService exC9g "all"
        = some ["error stopping service a: service is not running so can not stop"]
    ∧ P0.StopAll exC9p = some ["service not running: a"]
    ∧ Guardian.StopService exC9g "all" ≠ P0.StopAll exC9p := by decide

/-- C10 (amended): in the guardian.go snapshot the post-grace-period
inspection is total — `Guardian.graceCheck` always produces a result (never
the panic value), and in particular a child with no exit state yet
(`ProcessState` nil, the still-running case) takes the success path without
dereferencing the absent exit state.  In the part_000 snapshot the nil
guard is absent; see the counterexample. -/
theorem Guardian.graceCheck_total (name : String) (ps : Option ProcState) :
    (Guardian.graceCheck name ps).isSome
    ∧ Guardian.graceCheck name none = some (Except.ok ()) := by
  constructor
  · cases ps with
    | none => simp [Guardian.graceCheck]
    | some s => simp [Guardian.graceCheck, derefExited]
  · rfl

/-- C10 counterexample: the part_000 snapshot's inspection calls `Exited()`
with no nil check; on a child still running when the grace period ends
(`ProcessState` nil) it dereferences the absent exit state — the `none`
result models that nil-pointer panic, so the inspection in that snapshot is
not guarded. -/
theorem P0.graceCheck_panics : P0.graceCheck "a" none = none := rfl
